import Mathlib

/-!
Formal model of the process and terminal execution engine in `app.py`
(PySandbox).  The Python functions `start_subprocess`, `stop_subprocess`,
`on_proc_input`, `spawn_pty_process`, `write_to_master`, `on_term_request`,
`on_term_disconnect`, `detect_preview_url` and `safe_join` are translated
into executable Lean definitions.  Side effects are made explicit:

* `socketio.emit` calls become elements of a `List Ev` returned by each
  function, in emission order;
* the global dicts `processes` and `terminals` become association lists
  with a lookup/insert/remove discipline matching Python dict semantics;
* OS-level nondeterminism (spawn success, kill success, write success,
  pipe contents, fresh uuid, current time) is passed in as parameters;
* background tasks (`_stream_reader`, `watchdog`, the PTY `reader`) are
  modelled by the events they emit and, for the job life cycle, by a small
  step-transition system over the observable actions of those tasks.
-/

/-- The SocketIO events emitted by the engine (event name plus payload). -/
inductive Ev
  | procStart (jobId : String)
  | procOutput (jobId : String) (stream : String) (text : String)
  | procPreview (jobId : String) (url : String)
  | procExit (jobId : String) (code : Option Int)
  | termReady (termId : String)
  | termOutput (termId : String) (text : String)
  | termExit (termId : String)
  | termError (msg : String)
  | termTokenRequired
  deriving DecidableEq

/-- Lookup in a registry (a Python dict keyed by id strings). -/
def regLookup {β : Type} : List (String × β) → String → Option β
  | [], _ => none
  | (k, v) :: rest, id => if k = id then some v else regLookup rest id

/-- `dict.pop(id, None)`: remove every binding of `id` (a dict has at most
one, so on well-formed registries this is exactly Python's `pop`). -/
def regRemove {β : Type} : List (String × β) → String → List (String × β)
  | [], _ => []
  | (k, v) :: rest, id =>
    if k = id then regRemove rest id else (k, v) :: regRemove rest id

theorem regLookup_regRemove {β : Type} (reg : List (String × β)) (id : String) :
    regLookup (regRemove reg id) id = none := by
  induction reg with
  | nil => rfl
  | cons kv rest ih =>
    obtain ⟨k, v⟩ := kv
    by_cases h : k = id
    · simp [regRemove, h, ih]
    · simp [regRemove, regLookup, h, ih]

/-- `DEFAULT_TIMEOUT = 120` from the config section of `app.py`. -/
def DEFAULT_TIMEOUT : Int := 120

/-- The timeout interpretation performed inside `start_subprocess`:
`None => DEFAULT_TIMEOUT`, `0 => no timeout (None stored)`,
otherwise `int(timeout)` is stored as is. -/
def interpretTimeout : Option Int → Option Int
  | none => some DEFAULT_TIMEOUT
  | some t => if t = 0 then none else some t

/-- The metadata dict stored in `processes[job_id]`.  The `proc` field is
an abstract handle standing for the `subprocess.Popen` object. -/
structure JobMeta where
  proc : Nat
  sid : Option String
  start : Nat
  timeout : Option Int
  cmd : List String
  cwd : String
  deriving DecidableEq

/-- Observable outcome of one `start_subprocess` call: the returned job id,
the updated `processes` registry, the events the call itself emits (in
order), and which background tasks it started. -/
structure StartResult where
  jobId : String
  registry : List (String × JobMeta)
  events : List Ev
  readersSpawned : Nat
  watchdogSpawned : Bool
  deriving DecidableEq

/-- Model of `start_subprocess(cmd, cwd, sid, timeout)`.  `jobId` stands for
the fresh `uuid4`, `spawn` for the outcome of `subprocess.Popen` (a handle
on success, the exception text on failure) and `now` for `time.time()`.
On spawn failure the function emits a stderr output event and an exit event
with sentinel code `-1`, touches no registry, starts no task and still
returns the job id to the caller (no exception propagates).  On success it
registers the job, starts two `_stream_reader` tasks and one `watchdog`
task, and emits `proc.start`. -/
def start_subprocess (registry : List (String × JobMeta)) (jobId : String)
    (spawn : Except String Nat) (now : Nat)
    (cmd : List String) (cwd : String) (sid : Option String)
    (timeout : Option Int) : StartResult :=
  match spawn with
  | Except.error e =>
    { jobId := jobId
      registry := registry
      events := [Ev.procOutput jobId "stderr" ("Failed to start: " ++ e ++ "\n"),
                 Ev.procExit jobId (some (-1))]
      readersSpawned := 0
      watchdogSpawned := false }
  | Except.ok procHandle =>
    { jobId := jobId
      registry := (jobId,
        { proc := procHandle, sid := sid, start := now,
          timeout := interpretTimeout timeout, cmd := cmd, cwd := cwd }) ::
        regRemove registry jobId
      events := [Ev.procStart jobId]
      readersSpawned := 2
      watchdogSpawned := true }

/-- The kill condition evaluated on every tick of the `watchdog` loop:
`meta["timeout"] and elapsed > meta["timeout"]`.  A stored `None` is falsy
(and so is a stored `0`, though `start_subprocess` never stores `0`). -/
def watchdogWouldKill (storedTimeout : Option Int) (elapsed : Int) : Bool :=
  match storedTimeout with
  | none => false
  | some t => t != 0 && elapsed > t

/-- Model of `stop_subprocess(job_id)`.  `killOk`/`terminateOk` stand for
whether `proc.kill()` resp. `proc.terminate()` raise.  The function never
pops the registry entry; it only signals the process. -/
def stop_subprocess (registry : List (String × JobMeta)) (jobId : String)
    (killOk terminateOk : Bool) : Bool :=
  match regLookup registry jobId with
  | none => false
  | some _ => if killOk then true else if terminateOk then true else false

/-- Model of the `proc.input` handler `on_proc_input`.  Returns the list of
events it emits.  `hasStdin` models `p.stdin` being non-None, `writeOk`
whether the `write`/`flush` raise, `writeErr` the exception text.  A Python
`None`/empty `job_id` is modelled by the empty string (the `if not job_id`
guard). -/
def on_proc_input (registry : List (String × JobMeta)) (jobId : String)
    (data : String) (hasStdin writeOk : Bool) (writeErr : String) : List Ev :=
  if jobId = "" then
    [Ev.procOutput "" "stderr" "Missing job_id or data\n"]
  else
    match regLookup registry jobId with
    | none => [Ev.procOutput jobId "stderr" "Job not found\n"]
    | some _ =>
      if hasStdin then
        if writeOk then
          [Ev.procOutput jobId "stdout" ("[stdin sent] " ++ data)]
        else
          [Ev.procOutput jobId "stderr" ("Failed to write stdin: " ++ writeErr ++ "\n")]
      else
        [Ev.procOutput jobId "stderr" "No stdin for process\n"]

/-- The metadata dict stored in `terminals[term_id]`. -/
structure TermMeta where
  masterFd : Option Nat
  proc : Nat
  sid : String
  deriving DecidableEq

/-- Observable outcome of one `spawn_pty_process` call. -/
structure SpawnPtyResult where
  ok : Bool
  registry : List (String × TermMeta)
  events : List Ev
  readerSpawned : Bool
  deriving DecidableEq

/-- Model of `spawn_pty_process(term_id, sid, cols, rows)`.  `ptyOk` models
`import pty` succeeding, `masterFd` the master fd from `pty.openpty()`,
`spawnShell` the outcome of `subprocess.Popen([shell, "-i"], ...)`.  On
success the terminal is registered and exactly one `reader` background task
is started; the function itself emits nothing on that path. -/
def spawn_pty_process (registry : List (String × TermMeta))
    (termId sid : String) (ptyOk : Bool) (masterFd : Nat)
    (spawnShell : Except String Nat) : SpawnPtyResult :=
  if !ptyOk then
    { ok := false, registry := registry,
      events := [Ev.termError "PTY support not available"],
      readerSpawned := false }
  else
    match spawnShell with
    | Except.error e =>
      { ok := false, registry := registry,
        events := [Ev.termError ("Failed to spawn shell: " ++ e)],
        readerSpawned := false }
    | Except.ok shellProc =>
      { ok := true
        registry := (termId,
          { masterFd := some masterFd, proc := shellProc, sid := sid }) ::
          regRemove registry termId
        events := []
        readerSpawned := true }

/-- Model of `write_to_master(term_id, data)`.  `writeOk` models the
`os.write` call not raising.  The function emits no event on any path. -/
def write_to_master (registry : List (String × TermMeta)) (termId : String)
    (data : String) (writeOk : Bool) : Bool :=
  match regLookup registry termId with
  | none => false
  | some meta =>
    match meta.masterFd with
    | none => false
    | some _ => writeOk

/-- Model of the `term.request` handler `on_term_request`.  Returns the
updated terminal registry and the emitted events.  `configuredToken` is
`TERMINAL_TOKEN` (configured iff non-empty), `presentedToken` the token
field of the message (`""` when absent). -/
def on_term_request (configuredToken presentedToken : String)
    (registry : List (String × TermMeta)) (termId sid : String)
    (ptyOk : Bool) (masterFd : Nat) (spawnShell : Except String Nat) :
    List (String × TermMeta) × List Ev :=
  if configuredToken ≠ "" ∧ presentedToken ≠ configuredToken then
    (registry, [Ev.termTokenRequired])
  else
    let r := spawn_pty_process registry termId sid ptyOk masterFd spawnShell
    if r.ok then
      (r.registry, r.events ++ [Ev.termReady termId])
    else
      (r.registry, r.events ++ [Ev.termError "Failed to create terminal"])

/-- Model of the `term.disconnect` handler `on_term_disconnect`: on an empty
or unknown id it does nothing; otherwise it calls `proc.terminate()`
(exceptions swallowed; no kill escalation in the code), pops the registry
entry and emits one `term.exit`. -/
def on_term_disconnect (registry : List (String × TermMeta))
    (termId : String) : List (String × TermMeta) × List Ev :=
  if termId = "" then (registry, [])
  else
    match regLookup registry termId with
    | none => (registry, [])
    | some _ => (regRemove registry termId, [Ev.termExit termId])

/-- The `finally` block of the PTY `reader` task in `spawn_pty_process`:
whenever the reader loop ends (EOF or the shell found dead) it closes the
master fd, emits `term.exit` and pops the registry entry — unconditionally,
with no check whether another actor already emitted. -/
def pty_reader_finalize (registry : List (String × TermMeta))
    (termId : String) : List (String × TermMeta) × List Ev :=
  (regRemove registry termId, [Ev.termExit termId])

/-- The behaviour of the code after a `term.disconnect` request on a live
terminal: the handler runs (terminating the shell), and the reader task
subsequently observes the shell's death and runs its `finally` block.
The combined emitted trace is the concatenation. -/
def disconnect_then_reader_exit (registry : List (String × TermMeta))
    (termId : String) : List (String × TermMeta) × List Ev :=
  let r1 := on_term_disconnect registry termId
  let r2 := pty_reader_finalize r1.1 termId
  (r2.1, r1.2 ++ r2.2)

/-- Recognizer for `term.exit` events of a given terminal id. -/
def isTermExitFor (termId : String) : Ev → Bool
  | Ev.termExit t => t == termId
  | _ => false

/-- Number of `term.exit` events for `termId` in a trace. -/
def countTermExit (termId : String) (evs : List Ev) : Nat :=
  evs.countP (isTermExitFor termId)

/-- Recognizer for `proc.exit` events of a given job id. -/
def isExitFor (jobId : String) : Ev → Bool
  | Ev.procExit j _ => j == jobId
  | _ => false

/-- Recognizer for `proc.output` events of a given job id. -/
def isOutputFor (jobId : String) : Ev → Bool
  | Ev.procOutput j _ _ => j == jobId
  | _ => false

/-- Number of `proc.exit` events for `jobId` in a trace. -/
def countProcExit (jobId : String) (evs : List Ev) : Nat :=
  evs.countP (isExitFor jobId)

/-- `true` iff some `proc.output` for `jobId` occurs strictly after some
`proc.exit` for `jobId` in the trace. -/
def hasOutputAfterExit (jobId : String) : List Ev → Bool
  | [] => false
  | e :: rest =>
    if isExitFor jobId e then
      rest.any (isOutputFor jobId) || hasOutputAfterExit jobId rest
    else hasOutputAfterExit jobId rest

/-- State of one successfully started job as seen by its concurrent tasks:
whether the child process is still alive, the data sitting in its output
pipe (readable by `_stream_reader` even after the child died), whether the
`processes` entry is still present, and whether the `watchdog` task has
already run its final section (pop + `proc.exit` emission). -/
structure JobRun where
  alive : Bool
  buffered : List String
  registered : Bool
  watchdogDone : Bool
  deriving DecidableEq

/-- The observable atomic actions of the tasks attached to one job:
the child process dying, `_stream_reader` delivering one buffered chunk
(`socketio.emit("proc.output", ...)` — it performs no registry check), and
the `watchdog` observing `p.poll() is not None`, leaving its loop, popping
the registry entry and emitting `proc.exit`.  The watchdog's timeout-kill
branch only adds an extra `proc.output` before the same final section and
is not needed for the properties below. -/
inductive JStep
  | procDies
  | readerDelivers
  | watchdogObserves
  deriving DecidableEq

/-- One atomic step of the job task system; `none` when the action is not
enabled in the given state. -/
def jstep (jobId : String) (code : Option Int) (s : JobRun) :
    JStep → Option (JobRun × List Ev)
  | JStep.procDies =>
    if s.alive then
      some ({ alive := false, buffered := s.buffered,
              registered := s.registered, watchdogDone := s.watchdogDone }, [])
    else none
  | JStep.readerDelivers =>
    match s.buffered with
    | [] => none
    | chunk :: rest =>
      some ({ alive := s.alive, buffered := rest,
              registered := s.registered, watchdogDone := s.watchdogDone },
            [Ev.procOutput jobId "stdout" chunk])
  | JStep.watchdogObserves =>
    if !s.alive && !s.watchdogDone then
      some ({ alive := s.alive, buffered := s.buffered,
              registered := false, watchdogDone := true },
            [Ev.procExit jobId code])
    else none

/-- Run a sequence of steps, collecting the emitted trace. -/
def jrun (jobId : String) (code : Option Int) :
    JobRun → List JStep → Option (JobRun × List Ev)
  | s, [] => some (s, [])
  | s, st :: rest =>
    match jstep jobId code s st with
    | none => none
    | some (s', evs) =>
      match jrun jobId code s' rest with
      | none => none
      | some (s'', evs') => some (s'', evs ++ evs')

/-- Consume an exact literal prefix, returning the rest of the input. -/
def dropLit : List Char → List Char → Option (List Char)
  | [], cs => some cs
  | _ :: _, [] => none
  | l :: ls, c :: cs => if c = l then dropLit ls cs else none

/-- Match `<lit>\d+` at the start of the input; returns the matched text
(the regex groups in `detect_preview_url` span the whole match, and `\d+`
is greedy so the digit run is maximal). -/
def matchSchemeHostPort (lit : List Char) (cs : List Char) :
    Option (List Char) :=
  match dropLit lit cs with
  | none => none
  | some rest =>
    let ds := rest.takeWhile Char.isDigit
    if ds.isEmpty then none else some (lit ++ ds)

/-- `(https?://127\.0\.0\.1:\d+)` at the start of the input.  The two
scheme alternatives have incompatible prefixes, so trying them in either
order matches the regex. -/
def matchP1 (cs : List Char) : Option (List Char) :=
  match matchSchemeHostPort "https://127.0.0.1:".data cs with
  | some r => some r
  | none => matchSchemeHostPort "http://127.0.0.1:".data cs

/-- `(https?://0\.0\.0\.0:\d+)` at the start of the input. -/
def matchP2 (cs : List Char) : Option (List Char) :=
  match matchSchemeHostPort "https://0.0.0.0:".data cs with
  | some r => some r
  | none => matchSchemeHostPort "http://0.0.0.0:".data cs

/-- `(http://localhost:\d+)` at the start of the input. -/
def matchP3 (cs : List Char) : Option (List Char) :=
  matchSchemeHostPort "http://localhost:".data cs

/-- `(https?://localhost:\d+)` at the start of the input. -/
def matchP4 (cs : List Char) : Option (List Char) :=
  match matchSchemeHostPort "https://localhost:".data cs with
  | some r => some r
  | none => matchSchemeHostPort "http://localhost:".data cs

/-- Match `[0-9]+` at the start of the input; returns the (maximal) digit
run and the rest.  The regex token following each `[0-9]+` in pattern 5 is
a non-digit, so greedy matching never has to give digits back. -/
def matchOctet (cs : List Char) : Option (List Char × List Char) :=
  let ds := cs.takeWhile Char.isDigit
  if ds.isEmpty then none
  else some (ds, cs.dropWhile Char.isDigit)

/-- Consume a literal dot. -/
def expectDot : List Char → Option (List Char)
  | '.' :: rest => some rest
  | _ => none

/-- Consume a literal colon. -/
def expectColon : List Char → Option (List Char)
  | ':' :: rest => some rest
  | _ => none

/-- `[0-9]+\.[0-9]+\.[0-9]+\.[0-9]+:\d+` at the start of the input. -/
def matchQuadTail (cs : List Char) : Option (List Char) := do
  let (o1, r1) ← matchOctet cs
  let r1d ← expectDot r1
  let (o2, r2) ← matchOctet r1d
  let r2d ← expectDot r2
  let (o3, r3) ← matchOctet r2d
  let r3d ← expectDot r3
  let (o4, r4) ← matchOctet r3d
  let r4c ← expectColon r4
  let (port, _) ← matchOctet r4c
  some (o1 ++ ['.'] ++ o2 ++ ['.'] ++ o3 ++ ['.'] ++ o4 ++ [':'] ++ port)

/-- `(https?://[0-9]+\.[0-9]+\.[0-9]+\.[0-9]+:\d+)` at the start of the
input — note the pattern requires an explicit scheme; it does not match a
bare `host:port`. -/
def matchP5 (cs : List Char) : Option (List Char) :=
  match dropLit "https://".data cs with
  | some rest => (matchQuadTail rest).map (fun t => "https://".data ++ t)
  | none =>
    match dropLit "http://".data cs with
    | some rest => (matchQuadTail rest).map (fun t => "http://".data ++ t)
    | none => none

/-- The characters of Python's `\s` class (ASCII part). -/
def isPySpace (c : Char) : Bool :=
  c = ' ' || c = '\t' || c = '\n' || c = '\r' || c = '\x0b' || c = '\x0c'

/-- `Running on (http://[^\s]+)` at the start of the input; the captured
group starts at `http://`. -/
def matchRunningOn (cs : List Char) : Option (List Char) :=
  match dropLit "Running on http://".data cs with
  | none => none
  | some rest =>
    let ns := rest.takeWhile (fun c => !isPySpace c)
    if ns.isEmpty then none else some ("http://".data ++ ns)

/-- `re.search`: try the matcher at every position from the left; the
leftmost match wins. -/
def searchAt (m : List Char → Option (List Char)) :
    List Char → Option (List Char)
  | [] => m []
  | c :: cs =>
    match m (c :: cs) with
    | some r => some r
    | none => searchAt m cs

/-- The `patterns` list of `detect_preview_url`, in source order. -/
def patternList : List (List Char → Option (List Char)) :=
  [matchP1, matchP2, matchP3, matchP4, matchP5]

/-- The `for p in patterns` loop: first pattern (in list order) that has a
match anywhere in the text wins. -/
def searchPatterns : List (List Char → Option (List Char)) →
    List Char → Option (List Char)
  | [], _ => none
  | p :: ps, cs =>
    match searchAt p cs with
    | some r => some r
    | none => searchPatterns ps cs

/-- Python's `text.replace("0.0.0.0", "127.0.0.1")`: scan left to right,
non-overlapping, resuming after each replacement. -/
def rewriteZeros : List Char → List Char
  | '0' :: '.' :: '0' :: '.' :: '0' :: '.' :: '0' :: rest =>
    "127.0.0.1".data ++ rewriteZeros rest
  | c :: rest => c :: rewriteZeros rest
  | [] => []

/-- Model of `detect_preview_url(text)`: try each pattern of the list in
order via `re.search`, then the `Running on` pattern; the result is
post-processed with `replace("0.0.0.0", "127.0.0.1")`. -/
def detect_preview_url (s : String) : Option String :=
  match searchPatterns patternList s.data with
  | some r => some (String.mk (rewriteZeros r))
  | none =>
    match searchAt matchRunningOn s.data with
    | some r => some (String.mk (rewriteZeros r))
    | none => none

/-- The matcher `m` matches at some position of `cs` (the property that
`re.search` decides). -/
def occursPat (m : List Char → Option (List Char)) (cs : List Char) : Prop :=
  ∃ pre suf, cs = pre ++ suf ∧ (m suf).isSome = true

/-- Python's `p.split('/')` on the character level (keeps empty pieces). -/
def splitSlash : List Char → List (List Char)
  | [] => [[]]
  | '/' :: rest => [] :: splitSlash rest
  | c :: rest =>
    match splitSlash rest with
    | comp :: comps => (c :: comp) :: comps
    | [] => [[c]]

/-- One iteration of the component loop of `posixpath.normpath`. -/
def processComp (slashes : Nat) (acc : List String) (comp : String) :
    List String :=
  if comp = "" ∨ comp = "." then acc
  else if comp ≠ ".." then acc ++ [comp]
  else if slashes = 0 ∧ acc = [] then acc ++ [comp]
  else if acc.getLast? = some ".." then acc ++ [comp]
  else if acc ≠ [] then acc.dropLast
  else acc

/-- Model of `posixpath.normpath` (what `os.path.abspath` applies):
collapse `.` and empty components and resolve `..` against the stack,
keeping one (or, POSIX special case, two) leading slashes. -/
def normpath (p : String) : String :=
  if p = "" then "."
  else
    let cs := p.data
    let slashes : Nat :=
      if "//".data.isPrefixOf cs ∧ ¬ ("///".data.isPrefixOf cs) then 2
      else if "/".data.isPrefixOf cs then 1
      else 0
    let comps := (splitSlash cs).map String.mk
    let newComps := comps.foldl (processComp slashes) []
    let path := String.mk (List.replicate slashes '/') ++
      String.intercalate "/" newComps
    if path = "" then "." else path

/-- One step of `posixpath.join`: absolute second argument restarts the
path, otherwise a separator is inserted unless one is already there. -/
def pyJoin1 (a b : String) : String :=
  if "/".data.isPrefixOf b.data then b
  else if a = "" ∨ a.data.getLast? = some '/' then a ++ b
  else a ++ "/" ++ b

/-- `os.path.join(base, *paths)`. -/
def pyJoin (base : String) (paths : List String) : String :=
  paths.foldl pyJoin1 base

/-- `os.path.abspath(p)` with the process working directory `cwd` made
explicit: relative paths are joined onto `cwd`, then normalized. -/
def abspath (cwd p : String) : String :=
  if "/".data.isPrefixOf p.data then normpath p
  else normpath (pyJoin1 cwd p)

/-- Model of `safe_join(base, *paths)`: `none` models the raised
`ValueError("Invalid path")`.  The containment check is literally
`candidate.startswith(base)` on the absolutized strings. -/
def safe_join (cwd : String) (base : String) (paths : List String) :
    Option String :=
  let b := abspath cwd base
  let candidate := abspath cwd (pyJoin b paths)
  if b.data.isPrefixOf candidate.data then some candidate else none

/-- Formalization of the claim's containment property: a normalized
absolute path lies within the directory `base` iff it equals `base` or is
a descendant of `base` as a directory. -/
def withinDir (candidate base : String) : Bool :=
  candidate == base || (base ++ "/").data.isPrefixOf candidate.data

/-- Claim C2 counterexample: a job started successfully with an explicit
timeout of `0` does spawn a watchdog task — `start_subprocess` starts the
watchdog unconditionally on the success path. -/
theorem C2_watchdog_spawned_counterexample :
    (start_subprocess [] "job-1" (Except.ok 7) 0 ["sleep", "999"]
      "/workspace" none (some 0)).events = [Ev.procStart "job-1"] ∧
    (start_subprocess [] "job-1" (Except.ok 7) 0 ["sleep", "999"]
      "/workspace" none (some 0)).watchdogSpawned = true := by
  exact ⟨rfl, rfl⟩

/-- Claim C2 (corrected): for every job started with an explicit timeout of
`0`, a watchdog task is still spawned, but the stored deadline is `None`
and the watchdog's timeout branch can never trigger, so it never
force-kills the job. -/
theorem C2_timeout_zero_watchdog
    (registry : List (String × JobMeta)) (jobId : String) (procHandle : Nat)
    (now : Nat) (cmd : List String) (cwd : String) (sid : Option String) :
    (start_subprocess registry jobId (Except.ok procHandle) now cmd cwd sid
      (some 0)).watchdogSpawned = true ∧
    regLookup (start_subprocess registry jobId (Except.ok procHandle) now
      cmd cwd sid (some 0)).registry jobId =
      some { proc := procHandle, sid := sid, start := now, timeout := none,
             cmd := cmd, cwd := cwd } ∧
    (∀ elapsed : Int, watchdogWouldKill none elapsed = false) := by
  refine ⟨rfl, ?_, fun _ => rfl⟩
  simp [start_subprocess, regLookup, interpretTimeout]

/-- Claim C4 (confirmed): when a secret token is configured and a terminal
request presents a token that does not match it exactly, the request emits
exactly the `term.token.required` rejection, no terminal is created and the
Terminal Registry is unchanged. -/
theorem C4_wrong_token_rejected
    (configuredToken presentedToken : String)
    (registry : List (String × TermMeta)) (termId sid : String)
    (ptyOk : Bool) (masterFd : Nat) (spawnShell : Except String Nat)
    (hcfg : configuredToken ≠ "") (hne : presentedToken ≠ configuredToken) :
    on_term_request configuredToken presentedToken registry termId sid
      ptyOk masterFd spawnShell = (registry, [Ev.termTokenRequired]) := by
  simp [on_term_request, hcfg, hne]

/-- Witness for C4 at a concrete configured token and wrong presented
token. -/
theorem C4_wrong_token_rejected_witness :
    on_term_request "secret" "wrong" [] "t1" "sid1" true 3 (Except.ok 9) =
      ([], [Ev.termTokenRequired]) :=
  C4_wrong_token_rejected "secret" "wrong" [] "t1" "sid1" true 3
    (Except.ok 9) (by decide) (by decide)

/-- Claim C5 (confirmed): `start_subprocess` interprets `timeout` as:
absent (`None`) means a default deadline of 120 seconds, zero means no
deadline, and a positive value means that many seconds; the deadline stored
in the job's registry entry equals this interpretation. -/
theorem C5_timeout_interpretation :
    interpretTimeout none = some 120 ∧
    interpretTimeout (some 0) = none ∧
    (∀ t : Int, 0 < t → interpretTimeout (some t) = some t) ∧
    (∀ (registry : List (String × JobMeta)) (jobId : String)
       (procHandle : Nat) (now : Nat) (cmd : List String) (cwd : String)
       (sid : Option String) (timeout : Option Int),
       regLookup (start_subprocess registry jobId (Except.ok procHandle)
         now cmd cwd sid timeout).registry jobId =
         some { proc := procHandle, sid := sid, start := now,
                timeout := interpretTimeout timeout, cmd := cmd,
                cwd := cwd }) := by
  refine ⟨rfl, rfl, ?_, ?_⟩
  · intro t ht
    have : t ≠ 0 := by omega
    simp [interpretTimeout, this]
  · intro registry jobId procHandle now cmd cwd sid timeout
    simp [start_subprocess, regLookup]

/-- Witness for C5 at the concrete positive timeout 5 and a concrete job. -/
theorem C5_timeout_interpretation_witness :
    interpretTimeout (some 5) = some 5 ∧
    regLookup (start_subprocess [] "j" (Except.ok 1) 10 ["echo"] "/w" none
      (some 5)).registry "j" =
      some { proc := 1, sid := none, start := 10, timeout := some 5,
             cmd := ["echo"], cwd := "/w" } := by
  constructor
  · exact C5_timeout_interpretation.2.2.1 5 (by decide)
  · have h := C5_timeout_interpretation.2.2.2 [] "j" 1 10 ["echo"] "/w"
      none (some 5)
    simpa [interpretTimeout] using h

/-- Claim C6 (confirmed): when the spawn fails, `start_subprocess` still
returns the job identifier to the caller (no exception), emits an output
event on the error stream followed by an exit event with sentinel code
`-1`, and leaves no registry entry for that identifier. -/
theorem C6_spawn_failure_events
    (registry : List (String × JobMeta)) (jobId : String) (err : String)
    (now : Nat) (cmd : List String) (cwd : String) (sid : Option String)
    (timeout : Option Int) (hfresh : regLookup registry jobId = none) :
    (start_subprocess registry jobId (Except.error err) now cmd cwd sid
      timeout).jobId = jobId ∧
    (start_subprocess registry jobId (Except.error err) now cmd cwd sid
      timeout).events =
      [Ev.procOutput jobId "stderr" ("Failed to start: " ++ err ++ "\n"),
       Ev.procExit jobId (some (-1))] ∧
    regLookup (start_subprocess registry jobId (Except.error err) now cmd
      cwd sid timeout).registry jobId = none := by
  exact ⟨rfl, rfl, hfresh⟩

/-- Witness for C6 at a concrete failed spawn. -/
theorem C6_spawn_failure_events_witness :
    (start_subprocess [] "j9" (Except.error "No such file") 0 ["nope"] "/w"
      none none).jobId = "j9" ∧
    (start_subprocess [] "j9" (Except.error "No such file") 0 ["nope"] "/w"
      none none).events =
      [Ev.procOutput "j9" "stderr" "Failed to start: No such file\n",
       Ev.procExit "j9" (some (-1))] ∧
    regLookup (start_subprocess [] "j9" (Except.error "No such file") 0
      ["nope"] "/w" none none).registry "j9" = none := by
  have h := C6_spawn_failure_events [] "j9" "No such file" 0 ["nope"] "/w"
    none none rfl
  exact ⟨h.1, by simpa using h.2.1, h.2.2⟩

/-- Claim C7 counterexample: `proc.input` on an identifier absent from the
registry does emit an output event — a `proc.output` with text
`Job not found` — rather than failing silently with no output. -/
theorem C7_job_not_found_emits_counterexample :
    on_proc_input [] "4f9a" "hello\n" true true "" =
      [Ev.procOutput "4f9a" "stderr" "Job not found\n"] ∧
    on_proc_input [] "4f9a" "hello\n" true true "" ≠ [] := by
  exact ⟨rfl, by decide⟩

/-- Claim C7 (corrected): `term.input` on an identifier that has already
exited returns `false` and emits no output (`write_to_master` contains no
emit call on any path), but `proc.input` on an identifier that has already
exited emits exactly one `proc.output` error event with text
`Job not found` instead of failing silently. -/
theorem C7_write_after_exit
    (jobRegistry : List (String × JobMeta))
    (termRegistry : List (String × TermMeta)) (id : String)
    (data : String) (hasStdin writeOk termWriteOk : Bool) (writeErr : String)
    (hid : id ≠ "") (hjob : regLookup jobRegistry id = none)
    (hterm : regLookup termRegistry id = none) :
    on_proc_input jobRegistry id data hasStdin writeOk writeErr =
      [Ev.procOutput id "stderr" "Job not found\n"] ∧
    write_to_master termRegistry id data termWriteOk = false := by
  constructor
  · simp [on_proc_input, hid, hjob]
  · simp [write_to_master, hterm]

/-- Witness for C7 at a concrete reaped identifier. -/
theorem C7_write_after_exit_witness :
    on_proc_input [] "gone" "x" true true "" =
      [Ev.procOutput "gone" "stderr" "Job not found\n"] ∧
    write_to_master [] "gone" "x" true = false :=
  C7_write_after_exit [] [] "gone" "x" true true true "" (by decide) rfl rfl

/-- Claim C8 (confirmed): `stop_subprocess` returns `false` for an
identifier that was never registered, and returns `false` for a repeated
stop on a job that has already exited (whose entry the watchdog has
popped); being a total function, it raises nothing in either case. -/
theorem C8_stop_returns_false
    (registry : List (String × JobMeta)) (jobId : String)
    (killOk terminateOk : Bool) :
    (regLookup registry jobId = none →
      stop_subprocess registry jobId killOk terminateOk = false) ∧
    stop_subprocess (regRemove registry jobId) jobId killOk terminateOk =
      false := by
  constructor
  · intro h
    simp [stop_subprocess, h]
  · simp [stop_subprocess, regLookup_regRemove]

/-- Witness for C8 at a concrete unknown identifier and a concrete
already-popped registry. -/
theorem C8_stop_returns_false_witness :
    stop_subprocess [] "never-there" true true = false ∧
    stop_subprocess
      (regRemove [("j1", ({ proc := 1, sid := none, start := 0,
                            timeout := none, cmd := [], cwd := "" } :
                           JobMeta))]
        "j1") "j1" true true = false := by
  constructor
  · exact (C8_stop_returns_false [] "never-there" true true).1 rfl
  · exact (C8_stop_returns_false [("j1", { proc := 1, sid := none,
                                           start := 0, timeout := none,
                                           cmd := [], cwd := "" })] "j1" true
      true).2

/-- Claim C3 counterexample: disconnecting a registered terminal makes the
system emit two `term.exit` events for that identifier — one from the
`term.disconnect` handler and one from the reader task's `finally` block —
not exactly one. -/
theorem C3_double_term_exit_counterexample :
    countTermExit "t1"
      (disconnect_then_reader_exit
        [("t1", { masterFd := some 5, proc := 9, sid := "sid1" })] "t1").2
      = 2 ∧
    countTermExit "t1"
      (disconnect_then_reader_exit
        [("t1", { masterFd := some 5, proc := 9, sid := "sid1" })] "t1").2
      ≠ 1 := by
  exact ⟨by decide, by decide⟩

/-- Claim C3 (corrected): `term.disconnect` on a registered terminal
removes the registry entry and emits one `term.exit` from the handler; the
terminal's reader task then emits a second `term.exit` for the same
identifier when it observes the shell's death, so counting emissions from
both concurrent actors, two `term.exit` events are emitted, not one. -/
theorem C3_disconnect_exit_events
    (registry : List (String × TermMeta)) (termId : String)
    (meta : TermMeta) (hid : termId ≠ "")
    (hreg : regLookup registry termId = some meta) :
    (on_term_disconnect registry termId).2 = [Ev.termExit termId] ∧
    regLookup (disconnect_then_reader_exit registry termId).1 termId =
      none ∧
    countTermExit termId (disconnect_then_reader_exit registry termId).2 =
      2 := by
  refine ⟨?_, ?_, ?_⟩
  · simp [on_term_disconnect, hid, hreg]
  · simp [disconnect_then_reader_exit, on_term_disconnect, hid, hreg,
      pty_reader_finalize, regLookup_regRemove]
  · simp [disconnect_then_reader_exit, on_term_disconnect, hid, hreg,
      pty_reader_finalize, countTermExit, isTermExitFor]

/-- Witness for C3 at a concrete registered terminal. -/
theorem C3_disconnect_exit_events_witness :
    (on_term_disconnect
      [("t7", { masterFd := some 5, proc := 9, sid := "s" })] "t7").2 =
      [Ev.termExit "t7"] ∧
    regLookup (disconnect_then_reader_exit
      [("t7", { masterFd := some 5, proc := 9, sid := "s" })] "t7").1
      "t7" = none ∧
    countTermExit "t7" (disconnect_then_reader_exit
      [("t7", { masterFd := some 5, proc := 9, sid := "s" })] "t7").2 =
      2 :=
  C3_disconnect_exit_events
    [("t7", { masterFd := some 5, proc := 9, sid := "s" })] "t7"
    { masterFd := some 5, proc := 9, sid := "s" } (by decide) rfl

/-- Claim C10 (code_bug): `safe_join`'s containment check is a raw string
prefix test, so a client-supplied relative path can escape the base
directory into a sibling directory whose name extends the base's final
component: from base `/srv/workspace` the path `../workspace2/secret.txt`
passes the check and resolves to `/srv/workspace2/secret.txt`, which is
not within `/srv/workspace`. -/
theorem C10_safe_join_escape :
    safe_join "/" "/srv/workspace" ["../workspace2/secret.txt"] =
      some "/srv/workspace2/secret.txt" ∧
    withinDir "/srv/workspace2/secret.txt" "/srv/workspace" = false := by
  exact ⟨by decide, by decide⟩

theorem jstep_watchdog_count (jobId : String) (code : Option Int)
    (s s' : JobRun) (st : JStep) (evs : List Ev)
    (h : jstep jobId code s st = some (s', evs)) :
    countProcExit jobId evs + s.watchdogDone.toNat =
      s'.watchdogDone.toNat := by
  cases st with
  | procDies =>
    simp only [jstep] at h
    split at h
    · simp only [Option.some.injEq, Prod.mk.injEq] at h
      obtain ⟨rfl, rfl⟩ := h
      simp [countProcExit]
    · cases h
  | readerDelivers =>
    simp only [jstep] at h
    split at h
    · cases h
    · simp only [Option.some.injEq, Prod.mk.injEq] at h
      obtain ⟨rfl, rfl⟩ := h
      simp [countProcExit, isExitFor]
  | watchdogObserves =>
    simp only [jstep] at h
    split at h
    · simp only [Option.some.injEq, Prod.mk.injEq] at h
      obtain ⟨rfl, rfl⟩ := h
      rename_i hcond
      simp only [Bool.and_eq_true, Bool.not_eq_true'] at hcond
      simp [countProcExit, isExitFor, hcond.2]
    · cases h

theorem jrun_watchdog_count (jobId : String) (code : Option Int) :
    ∀ (steps : List JStep) (s s' : JobRun) (evs : List Ev),
      jrun jobId code s steps = some (s', evs) →
      countProcExit jobId evs + s.watchdogDone.toNat =
        s'.watchdogDone.toNat := by
  intro steps
  induction steps with
  | nil =>
    intro s s' evs h
    simp only [jrun, Option.some.injEq, Prod.mk.injEq] at h
    obtain ⟨rfl, rfl⟩ := h
    simp [countProcExit]
  | cons st rest ih =>
    intro s s' evs h
    simp only [jrun] at h
    cases h1 : jstep jobId code s st with
    | none => rw [h1] at h; cases h
    | some pr =>
      obtain ⟨s1, evs1⟩ := pr
      rw [h1] at h
      dsimp only at h
      cases h2 : jrun jobId code s1 rest with
      | none => rw [h2] at h; cases h
      | some pr2 =>
        obtain ⟨s2, evs2⟩ := pr2
        rw [h2] at h
        simp only [Option.some.injEq, Prod.mk.injEq] at h
        obtain ⟨rfl, rfl⟩ := h
        have e1 := jstep_watchdog_count jobId code s s1 st evs1 h1
        have e2 := ih s1 s2 evs2 h2
        simp only [countProcExit, List.countP_append] at e1 e2 ⊢
        omega

/-- Claim C1 (corrected): for every successfully started job, `proc.exit`
for its identifier is emitted exactly once — the number of `proc.exit`
events in any valid execution equals `1` precisely when the watchdog (the
sole emitter) has run its final section, and never exceeds it — but
`proc.output` events for that identifier can still be emitted after the
`proc.exit` event, because the stream readers keep delivering buffered
output without any registry check after the watchdog has emitted the
exit. -/
theorem C1_proc_exit_once (jobId : String) (code : Option Int) :
    (∀ (steps : List JStep) (s s' : JobRun) (evs : List Ev),
        jrun jobId code s steps = some (s', evs) →
        s.watchdogDone = false →
        countProcExit jobId evs = s'.watchdogDone.toNat) ∧
    (∃ (steps : List JStep) (s s' : JobRun) (evs : List Ev),
        jrun jobId code s steps = some (s', evs) ∧
        s.watchdogDone = false ∧
        hasOutputAfterExit jobId evs = true) := by
  constructor
  · intro steps s s' evs h hdone
    have := jrun_watchdog_count jobId code steps s s' evs h
    rw [hdone] at this
    simpa using this
  · refine ⟨[JStep.procDies, JStep.watchdogObserves, JStep.readerDelivers],
      { alive := true, buffered := ["hello\n"], registered := true,
        watchdogDone := false },
      { alive := false, buffered := [], registered := false,
        watchdogDone := true },
      [Ev.procExit jobId code, Ev.procOutput jobId "stdout" "hello\n"],
      rfl, rfl, ?_⟩
    simp [hasOutputAfterExit, isExitFor, isOutputFor]

/-- Witness for C1's universally quantified part at a concrete two-step
run whose watchdog completes: exactly one `proc.exit` is counted. -/
theorem C1_proc_exit_once_witness :
    countProcExit "j" [Ev.procExit "j" (some 0)] = (true : Bool).toNat := by
  exact (C1_proc_exit_once "j" (some 0)).1
    [JStep.procDies, JStep.watchdogObserves]
    { alive := true, buffered := [], registered := true,
      watchdogDone := false }
    { alive := false, buffered := [], registered := false,
      watchdogDone := true }
    [Ev.procExit "j" (some 0)] (by decide) rfl

/-- Claim C1 counterexample: a valid execution of the tasks of one
successfully started job — the process dies, the watchdog observes the
death and emits `proc.exit`, then the stream reader delivers a still
buffered chunk as `proc.output` — yields a trace in which a `proc.output`
for the job id follows the `proc.exit` for the same id. -/
theorem C1_output_after_exit_counterexample :
    jrun "j" (some 0)
      { alive := true, buffered := ["hello\n"], registered := true,
        watchdogDone := false }
      [JStep.procDies, JStep.watchdogObserves, JStep.readerDelivers] =
      some ({ alive := false, buffered := [], registered := false,
              watchdogDone := true },
            [Ev.procExit "j" (some 0),
             Ev.procOutput "j" "stdout" "hello\n"]) ∧
    hasOutputAfterExit "j"
      [Ev.procExit "j" (some 0), Ev.procOutput "j" "stdout" "hello\n"] =
      true := by
  exact ⟨by decide, by decide⟩

theorem searchAt_isSome_iff (m : List Char → Option (List Char)) :
    ∀ cs, (searchAt m cs).isSome = true ↔ occursPat m cs := by
  intro cs
  induction cs with
  | nil =>
    constructor
    · intro h
      exact ⟨[], [], rfl, h⟩
    · rintro ⟨pre, suf, heq, hs⟩
      obtain ⟨rfl, rfl⟩ := List.append_eq_nil.mp heq.symm
      exact hs
  | cons c cs ih =>
    constructor
    · intro h
      simp only [searchAt] at h
      cases hm : m (c :: cs) with
      | some r => exact ⟨[], c :: cs, rfl, by simp [hm]⟩
      | none =>
        rw [hm] at h
        obtain ⟨pre, suf, heq, hs⟩ := ih.mp h
        exact ⟨c :: pre, suf, by simp [heq], hs⟩
    · rintro ⟨pre, suf, heq, hs⟩
      simp only [searchAt]
      cases pre with
      | nil =>
        simp only [List.nil_append] at heq
        rw [← heq] at hs
        obtain ⟨r, hr⟩ := Option.isSome_iff_exists.mp hs
        simp [hr]
      | cons a pre =>
        simp only [List.cons_append, List.cons.injEq] at heq
        cases hm : m (c :: cs) with
        | some r => simp
        | none => exact ih.mpr ⟨pre, suf, heq.2, hs⟩

theorem searchAt_eq_none_of_not_occurs
    (m : List Char → Option (List Char)) (cs : List Char)
    (h : ¬ occursPat m cs) : searchAt m cs = none := by
  cases he : searchAt m cs with
  | none => rfl
  | some r =>
    exact absurd ((searchAt_isSome_iff m cs).mp (by simp [he])) h

theorem searchAt_occurs_some (m : List Char → Option (List Char))
    (cs : List Char) (h : occursPat m cs) :
    ∃ r, searchAt m cs = some r :=
  Option.isSome_iff_exists.mp ((searchAt_isSome_iff m cs).mpr h)

theorem detect_eq_of_p1 (s : String) (h : occursPat matchP1 s.data) :
    detect_preview_url s =
      (searchAt matchP1 s.data).map (fun r => String.mk (rewriteZeros r)) := by
  obtain ⟨r, hr⟩ := searchAt_occurs_some matchP1 s.data h
  simp [detect_preview_url, patternList, searchPatterns, hr]

theorem detect_eq_of_p2 (s : String) (h1 : ¬ occursPat matchP1 s.data)
    (h : occursPat matchP2 s.data) :
    detect_preview_url s =
      (searchAt matchP2 s.data).map (fun r => String.mk (rewriteZeros r)) := by
  have e1 := searchAt_eq_none_of_not_occurs matchP1 s.data h1
  obtain ⟨r, hr⟩ := searchAt_occurs_some matchP2 s.data h
  simp [detect_preview_url, patternList, searchPatterns, e1, hr]

theorem detect_eq_of_p3 (s : String) (h1 : ¬ occursPat matchP1 s.data)
    (h2 : ¬ occursPat matchP2 s.data) (h : occursPat matchP3 s.data) :
    detect_preview_url s =
      (searchAt matchP3 s.data).map (fun r => String.mk (rewriteZeros r)) := by
  have e1 := searchAt_eq_none_of_not_occurs matchP1 s.data h1
  have e2 := searchAt_eq_none_of_not_occurs matchP2 s.data h2
  obtain ⟨r, hr⟩ := searchAt_occurs_some matchP3 s.data h
  simp [detect_preview_url, patternList, searchPatterns, e1, e2, hr]

theorem detect_eq_of_p4 (s : String) (h1 : ¬ occursPat matchP1 s.data)
    (h2 : ¬ occursPat matchP2 s.data) (h3 : ¬ occursPat matchP3 s.data)
    (h : occursPat matchP4 s.data) :
    detect_preview_url s =
      (searchAt matchP4 s.data).map (fun r => String.mk (rewriteZeros r)) := by
  have e1 := searchAt_eq_none_of_not_occurs matchP1 s.data h1
  have e2 := searchAt_eq_none_of_not_occurs matchP2 s.data h2
  have e3 := searchAt_eq_none_of_not_occurs matchP3 s.data h3
  obtain ⟨r, hr⟩ := searchAt_occurs_some matchP4 s.data h
  simp [detect_preview_url, patternList, searchPatterns, e1, e2, e3, hr]

theorem detect_eq_of_p5 (s : String) (h1 : ¬ occursPat matchP1 s.data)
    (h2 : ¬ occursPat matchP2 s.data) (h3 : ¬ occursPat matchP3 s.data)
    (h4 : ¬ occursPat matchP4 s.data) (h : occursPat matchP5 s.data) :
    detect_preview_url s =
      (searchAt matchP5 s.data).map (fun r => String.mk (rewriteZeros r)) := by
  have e1 := searchAt_eq_none_of_not_occurs matchP1 s.data h1
  have e2 := searchAt_eq_none_of_not_occurs matchP2 s.data h2
  have e3 := searchAt_eq_none_of_not_occurs matchP3 s.data h3
  have e4 := searchAt_eq_none_of_not_occurs matchP4 s.data h4
  obtain ⟨r, hr⟩ := searchAt_occurs_some matchP5 s.data h
  simp [detect_preview_url, patternList, searchPatterns, e1, e2, e3, e4, hr]

theorem detect_eq_of_running (s : String) (h1 : ¬ occursPat matchP1 s.data)
    (h2 : ¬ occursPat matchP2 s.data) (h3 : ¬ occursPat matchP3 s.data)
    (h4 : ¬ occursPat matchP4 s.data) (h5 : ¬ occursPat matchP5 s.data)
    (h : occursPat matchRunningOn s.data) :
    detect_preview_url s =
      (searchAt matchRunningOn s.data).map
        (fun r => String.mk (rewriteZeros r)) := by
  have e1 := searchAt_eq_none_of_not_occurs matchP1 s.data h1
  have e2 := searchAt_eq_none_of_not_occurs matchP2 s.data h2
  have e3 := searchAt_eq_none_of_not_occurs matchP3 s.data h3
  have e4 := searchAt_eq_none_of_not_occurs matchP4 s.data h4
  have e5 := searchAt_eq_none_of_not_occurs matchP5 s.data h5
  obtain ⟨r, hr⟩ := searchAt_occurs_some matchRunningOn s.data h
  simp [detect_preview_url, patternList, searchPatterns, e1, e2, e3, e4,
    e5, hr]

theorem detect_eq_none (s : String) (h1 : ¬ occursPat matchP1 s.data)
    (h2 : ¬ occursPat matchP2 s.data) (h3 : ¬ occursPat matchP3 s.data)
    (h4 : ¬ occursPat matchP4 s.data) (h5 : ¬ occursPat matchP5 s.data)
    (h6 : ¬ occursPat matchRunningOn s.data) :
    detect_preview_url s = none := by
  have e1 := searchAt_eq_none_of_not_occurs matchP1 s.data h1
  have e2 := searchAt_eq_none_of_not_occurs matchP2 s.data h2
  have e3 := searchAt_eq_none_of_not_occurs matchP3 s.data h3
  have e4 := searchAt_eq_none_of_not_occurs matchP4 s.data h4
  have e5 := searchAt_eq_none_of_not_occurs matchP5 s.data h5
  have e6 := searchAt_eq_none_of_not_occurs matchRunningOn s.data h6
  simp [detect_preview_url, patternList, searchPatterns, e1, e2, e3, e4,
    e5, e6]

/-- Claim C9 (corrected): preview detection matches the fixed pattern set
`http(s)://127.0.0.1:<port>`, `http(s)://0.0.0.0:<port>` (rewritten to
`127.0.0.1`), `http://localhost:<port>`, `https?://localhost:<port>`,
scheme-prefixed dotted-quad `host:port` (not bare), and the literal phrase
`Running on http://<url>`; a chunk yields a preview iff one of these
patterns occurs in it, the patterns are tried in that fixed priority order
— the returned URL is the leftmost match of the first pattern in the list
that matches anywhere, with `0.0.0.0` rewritten to `127.0.0.1` — not the
positionally first match in the chunk; a chunk matching none of the
patterns yields no preview. -/
theorem C9_preview_detection (s : String) :
    ((detect_preview_url s).isSome = true ↔
      (occursPat matchP1 s.data ∨ occursPat matchP2 s.data ∨
       occursPat matchP3 s.data ∨ occursPat matchP4 s.data ∨
       occursPat matchP5 s.data ∨ occursPat matchRunningOn s.data)) ∧
    (occursPat matchP1 s.data →
      detect_preview_url s =
        (searchAt matchP1 s.data).map
          (fun r => String.mk (rewriteZeros r))) ∧
    (¬ occursPat matchP1 s.data → occursPat matchP2 s.data →
      detect_preview_url s =
        (searchAt matchP2 s.data).map
          (fun r => String.mk (rewriteZeros r))) ∧
    (¬ occursPat matchP1 s.data → ¬ occursPat matchP2 s.data →
      occursPat matchP3 s.data →
      detect_preview_url s =
        (searchAt matchP3 s.data).map
          (fun r => String.mk (rewriteZeros r))) ∧
    (¬ occursPat matchP1 s.data → ¬ occursPat matchP2 s.data →
      ¬ occursPat matchP3 s.data → occursPat matchP4 s.data →
      detect_preview_url s =
        (searchAt matchP4 s.data).map
          (fun r => String.mk (rewriteZeros r))) ∧
    (¬ occursPat matchP1 s.data → ¬ occursPat matchP2 s.data →
      ¬ occursPat matchP3 s.data → ¬ occursPat matchP4 s.data →
      occursPat matchP5 s.data →
      detect_preview_url s =
        (searchAt matchP5 s.data).map
          (fun r => String.mk (rewriteZeros r))) ∧
    (¬ occursPat matchP1 s.data → ¬ occursPat matchP2 s.data →
      ¬ occursPat matchP3 s.data → ¬ occursPat matchP4 s.data →
      ¬ occursPat matchP5 s.data → occursPat matchRunningOn s.data →
      detect_preview_url s =
        (searchAt matchRunningOn s.data).map
          (fun r => String.mk (rewriteZeros r))) := by
  refine ⟨?_, detect_eq_of_p1 s, detect_eq_of_p2 s, detect_eq_of_p3 s,
    detect_eq_of_p4 s, detect_eq_of_p5 s, detect_eq_of_running s⟩
  constructor
  · intro h
    by_contra hn
    push_neg at hn
    obtain ⟨n1, n2, n3, n4, n5, n6⟩ := hn
    rw [detect_eq_none s n1 n2 n3 n4 n5 n6] at h
    simp at h
  · intro hocc
    by_cases o1 : occursPat matchP1 s.data
    · obtain ⟨r, hr⟩ := searchAt_occurs_some matchP1 s.data o1
      simp [detect_eq_of_p1 s o1, hr]
    by_cases o2 : occursPat matchP2 s.data
    · obtain ⟨r, hr⟩ := searchAt_occurs_some matchP2 s.data o2
      simp [detect_eq_of_p2 s o1 o2, hr]
    by_cases o3 : occursPat matchP3 s.data
    · obtain ⟨r, hr⟩ := searchAt_occurs_some matchP3 s.data o3
      simp [detect_eq_of_p3 s o1 o2 o3, hr]
    by_cases o4 : occursPat matchP4 s.data
    · obtain ⟨r, hr⟩ := searchAt_occurs_some matchP4 s.data o4
      simp [detect_eq_of_p4 s o1 o2 o3 o4, hr]
    by_cases o5 : occursPat matchP5 s.data
    · obtain ⟨r, hr⟩ := searchAt_occurs_some matchP5 s.data o5
      simp [detect_eq_of_p5 s o1 o2 o3 o4 o5, hr]
    by_cases o6 : occursPat matchRunningOn s.data
    · obtain ⟨r, hr⟩ := searchAt_occurs_some matchRunningOn s.data o6
      simp [detect_eq_of_running s o1 o2 o3 o4 o5 o6, hr]
    · tauto

/-- Witness for C9 at a concrete chunk containing a `127.0.0.1` URL. -/
theorem C9_preview_detection_witness :
    detect_preview_url "go https://127.0.0.1:80 now" =
      some "https://127.0.0.1:80" := by
  have hocc : occursPat matchP1 "go https://127.0.0.1:80 now".data :=
    ⟨"go ".data, "https://127.0.0.1:80 now".data, by decide, by decide⟩
  have h := (C9_preview_detection "go https://127.0.0.1:80 now").2.1 hocc
  rw [h]
  decide

/-- Claim C9 counterexample: a chunk containing the bare (scheme-less)
pattern `0.0.0.0:8080` yields no preview, although the claim lists
`0.0.0.0:<port>` in the pattern set; and in a chunk whose positionally
first matching URL is `http://localhost:3000`, the later
`https://127.0.0.1:8443` is returned instead, because pattern priority,
not position in the chunk, decides. -/
theorem C9_first_match_counterexample :
    detect_preview_url "Serving at 0.0.0.0:8080" = none ∧
    detect_preview_url
      "open http://localhost:3000 or https://127.0.0.1:8443" =
      some "https://127.0.0.1:8443" ∧
    occursPat matchP3
      "open http://localhost:3000 or https://127.0.0.1:8443".data := by
  refine ⟨by decide, by decide,
    ⟨"open ".data, "http://localhost:3000 or https://127.0.0.1:8443".data,
      by decide, by decide⟩⟩




